import Mathlib

/-!
Verification of the log-inspection tool server (`log_mcp/server.py`).

The embedding below is a shallow model of the server's core: path
resolution (`resolve_log_file`), the token-budgeted windowing loops of
`read_log_paginated`, `head_log`, `tail_log`, `read_log_range`, the match
selection of `search_log_file`, and the deduplicated context blocks of
`find_errors`.

Modelling conventions:
* a file's content is the list of its lines as Python's
  `readlines`/`splitlines(keepends=True)` returns them (each line keeps
  its trailing newline), so a line's character length matches `len(line)`;
* the token estimate `len(text) // 4` is `String.length / 4` on `Nat`;
* file-system state (existence, stat) is abstracted: handlers take the
  file's lines, byte size and mtime as arguments, modelling the code path
  reached after the existence checks succeed;
* compiled regular expressions (Python `re`, standard library, external
  to this repository) are abstracted as a Boolean line predicate;
* Python `float` mtimes are modelled as `ℚ`, and the literal `0.001`
  (resp. `0.8`) as the exact rational `1/1000` (resp. `4/5`).
-/

namespace LogMcp

/-- Token estimator: `len(text) // 4` (rough estimation, 4 chars per token). -/
def estimate (s : String) : Nat := s.length / 4

/-- Python `str.startswith(pre)`. -/
def strStartsWith (s pre : String) : Bool := pre.data.isPrefixOf s.data

/-- Modelled from the spec: boundary-aware containment — a directory `d`
contains a path `p` only if `p` equals `d` or starts with `d` followed by a
path separator.  This is the spec's mandated check, to be compared with the
code's plain string-prefix check. -/
def specContains (d p : String) : Bool := p == d || strStartsWith p (d ++ "/")

/-- The absolute-path branch of `resolve_log_file`: walk the permitted
directories in order and return the first whose canonical string form is a
plain string prefix of the canonical requested path
(`str(resolved).startswith(str(log_dir.resolve()))`).  `Path.resolve()` is
modelled as the identity on already-canonical, symlink-free paths: both the
directories and the requested path are given here in canonical form. -/
def resolve_log_file_abs (dirs : List String) (resolved : String) : Option String :=
  dirs.find? (fun d => strStartsWith resolved d)

/-! ### get_log_content -/

/-- Python `str.rfind('\n')`: index of the last newline, if any
(characters, matching Python's code-point indexing). -/
def rfindNewline (s : String) : Option Nat :=
  match s.data.reverse.findIdx? (fun c => c == '\n') with
  | some r => some (s.data.length - 1 - r)
  | none => none

/-- Result of `get_log_content` after the file checks: either the full
content, or content truncated to the token budget (broken at the last
newline when that keeps more than 80% of the truncation budget). -/
structure ContentResult where
  truncated : Bool
  body : String
  shown_tokens : Nat
  total_tokens : Nat
deriving Repr, DecidableEq

/-- `get_log_content`: note the code clamps `max_tokens` with
`min(arguments.get("max_tokens", 4000), 100000)` and has no
parameter-validation branch.  The `last_newline > max_chars * 0.8`
comparison is modelled exactly as `4 * max_chars < 5 * last_newline`. -/
def get_log_content (content : String) (max_tokens : Nat) : ContentResult :=
  let mt := min max_tokens 100000
  let total := content.length / 4
  if total ≤ mt then ⟨false, content, total, total⟩
  else
    let maxChars := mt * 4
    let t := String.mk (content.data.take maxChars)
    let t2 :=
      match rfindNewline t with
      | some ln => if 4 * maxChars < 5 * ln then String.mk (t.data.take ln) else t
      | none => t
    ⟨true, t2, t2.length / 4, total⟩

/-! ### read_log_paginated -/

/-- Arguments of `read_log_paginated` (after JSON decoding; `num_lines`
is the deprecated line-count override, `expected_size`/`expected_mtime`
the optional fingerprint). -/
structure PagArgs where
  start_line : Nat := 1
  max_tokens : Nat := 4000
  num_lines : Option Nat := none
  expected_size : Option Nat := none
  expected_mtime : Option ℚ := none
deriving Repr, DecidableEq

/-- The token-mode accumulation loop of `read_log_paginated`, verbatim
from the source:

    while current_idx < total_lines and estimated_tokens < max_tokens:
        ...
        if lines or estimated_tokens + line_tokens <= max_tokens: append
        else: break

`ne` carries `bool(lines)` (whether the accumulator is non-empty); the
remaining lines stand for `all_lines[current_idx:]`. -/
def pagCollect (maxTok : Nat) : List String → Nat → Bool → List String
  | [], _, _ => []
  | l :: ls, est, ne =>
    if est < maxTok then
      if ne = true ∨ est + estimate l ≤ maxTok then
        l :: pagCollect maxTok ls (est + estimate l) true
      else []
    else []

/-- The emitted window of `read_log_paginated`: line mode slices
`all_lines[start_line - 1 : end_line]` with
`end_line = min(start_line - 1 + num_lines, total_lines)`; token mode runs
the accumulation loop from `start_line - 1`. -/
def pagWindow (all : List String) (a : PagArgs) : List String :=
  match a.num_lines with
  | some n =>
    (all.drop (a.start_line - 1)).take
      (min (a.start_line - 1 + n) all.length - (a.start_line - 1))
  | none => pagCollect a.max_tokens (all.drop (a.start_line - 1)) 0 false

/-- The `end_line` variable of `read_log_paginated` (drives the
continuation hint): `min(start_line - 1 + num_lines, total_lines)` in line
mode, `start_line - 1 + len(lines)` in token mode. -/
def pagEndLine (all : List String) (a : PagArgs) : Nat :=
  match a.num_lines with
  | some n => min (a.start_line - 1 + n) all.length
  | none => a.start_line - 1 + (pagWindow all a).length

/-- The size-mismatch staleness warning text (`size_diff` is signed, with
an explicit `+` when positive). -/
def sizeWarning (expected actual : Nat) : String :=
  "⚠️  FILE SIZE CHANGED: Expected " ++ toString expected ++ " bytes, now "
    ++ toString actual ++ " bytes ("
    ++ (if (0 : Int) < (actual : Int) - (expected : Int) then "+" else "")
    ++ toString ((actual : Int) - (expected : Int))
    ++ " bytes). File was modified during pagination - line numbers may be inconsistent!"

/-- The mtime-mismatch staleness warning text. -/
def mtimeWarning : String :=
  "⚠️  FILE MODIFIED: Modification time changed. File was modified during pagination - line numbers may be inconsistent!"

/-- The advisory staleness warnings of `read_log_paginated`: compare the
supplied fingerprint against the file's current size and mtime
(`abs(expected_mtime - file_mtime) > 0.001`). -/
def pagWarnings (file_size : Nat) (file_mtime : ℚ) (a : PagArgs) : List String :=
  (match a.expected_size with
   | some es => if es ≠ file_size then [sizeWarning es file_size] else []
   | none => []) ++
  (match a.expected_mtime with
   | some em => if 1 / 1000 < |em - file_mtime| then [mtimeWarning] else []
   | none => [])

/-- Structured outcome of a successful `read_log_paginated` call: the
warnings block, the header metadata, the emitted window and the
continuation hint (`start_line=end_line + 1`, offered iff
`end_line < total_lines`). -/
structure PagOutput where
  warnings : List String
  file_size : Nat
  file_mtime : ℚ
  total_lines : Nat
  start_line : Nat
  window : List String
  end_line : Nat
  est : Nat
  continuation : Option Nat
deriving Repr, DecidableEq

/-- Assemble the successful `read_log_paginated` response. -/
def pagOutput (all : List String) (fs : Nat) (fm : ℚ) (a : PagArgs) : PagOutput :=
  let w := pagWindow all a
  let e := pagEndLine all a
  { warnings := pagWarnings fs fm a
    file_size := fs
    file_mtime := fm
    total_lines := all.length
    start_line := a.start_line
    window := w
    end_line := e
    est := (w.map estimate).sum
    continuation := if e < all.length then some (e + 1) else none }

/-- The `read_log_paginated` handler after the file checks: validate
`start_line`, then the bound of whichever mode is in effect (`num_lines`
overrides token mode), then produce the window. -/
def read_log_paginated (all : List String) (fs : Nat) (fm : ℚ) (a : PagArgs) :
    Except String PagOutput :=
  if a.start_line < 1 then .error "Error: start_line must be >= 1"
  else
    match a.num_lines with
    | some n =>
      if n < 1 ∨ 1000 < n then .error "Error: num_lines must be between 1 and 1000"
      else .ok (pagOutput all fs fm a)
    | none =>
      if a.max_tokens < 1 ∨ 100000 < a.max_tokens then
        .error "Error: max_tokens must be between 1 and 100000"
      else .ok (pagOutput all fs fm a)

/-- Validity of `read_log_paginated` arguments (the checks the handler
performs). -/
def pagArgsValid (a : PagArgs) : Bool :=
  decide (1 ≤ a.start_line) &&
    (match a.num_lines with
     | some n => decide (1 ≤ n) && decide (n ≤ 1000)
     | none => decide (1 ≤ a.max_tokens) && decide (a.max_tokens ≤ 100000))

/-! ### search_log_file -/

/-- Right-justified width-6 number, Python's `f"{n:6d}"` (numbers wider
than 6 digits are not padded). -/
def fmt6 (n : Nat) : String :=
  String.mk (List.replicate (6 - (toString n).length) ' ') ++ toString n

/-- The ordered list of 0-based indices of lines matching the predicate
(the `for i, line in enumerate(lines): if regex.search(line)` scan, with
the compiled regex abstracted as `p`). -/
def matchIndices (p : String → Bool) (lines : List String) : List Nat :=
  (List.range lines.length).filter (fun i => p (lines.getD i ""))

/-- The rendered context block of one match, used both for the token
estimate and for the output: lines `[match - before, match + after]`
clamped to file bounds, the matched line marked `>>>`, followed by a
60-dash separator. -/
def matchBlockText (lines : List String) (cb ca m : Nat) : String :=
  let start := m - cb
  let stop := min lines.length (m + ca + 1)
  (List.range' start (stop - start)).foldr
    (fun i acc =>
      (if i = m then ">>> " else "    ") ++ fmt6 (i + 1) ++ " | " ++ lines.getD i "" ++ acc)
    "" ++ "\n" ++ String.mk (List.replicate 60 '-') ++ "\n\n"

/-- The token-mode selection loop of `search_log_file`:

    if not paginated_matches or estimated_tokens + match_tokens <= max_tokens:
        paginated_matches.append(match_idx)
    else: break

`ne` carries `bool(paginated_matches)`; `cost` is the token estimate of a
match's context block. -/
def searchCollect (maxTok : Nat) (cost : Nat → Nat) : List Nat → Nat → Bool → List Nat
  | [], _, _ => []
  | m :: ms, est, ne =>
    if ne = false ∨ est + cost m ≤ maxTok then
      m :: searchCollect maxTok cost ms (est + cost m) true
    else []

/-- Arguments of `search_log_file` (pattern abstracted into the matcher;
`max_matches` is the deprecated match-count override). -/
structure SearchArgs where
  context_lines : Nat := 2
  context_before : Option Nat := none
  context_after : Option Nat := none
  max_tokens : Nat := 4000
  max_matches : Option Nat := none
  skip_matches : Nat := 0
deriving Repr, DecidableEq

/-- Effective before-context: `context_before` overrides `context_lines`. -/
def SearchArgs.cb (a : SearchArgs) : Nat := a.context_before.getD a.context_lines

/-- Effective after-context: `context_after` overrides `context_lines`. -/
def SearchArgs.ca (a : SearchArgs) : Nat := a.context_after.getD a.context_lines

/-- Mode-bound validation of `search_log_file`: `max_matches` (when
supplied) must be in `[1, 500]`, otherwise `max_tokens` must be in
`[1, 100000]`. -/
def searchModeErr (a : SearchArgs) : Option String :=
  match a.max_matches with
  | some mm =>
    if mm < 1 ∨ 500 < mm then some "Error: max_matches must be between 1 and 500" else none
  | none =>
    if a.max_tokens < 1 ∨ 100000 < a.max_tokens then
      some "Error: max_tokens must be between 1 and 100000"
    else none

/-- The match-selection core of `search_log_file`: drop the first
`skip_matches` matches, then accumulate by match cap (legacy) or token
budget, and offer the continuation cursor
`skip_matches=skip_matches + len(paginated_matches)` iff further matches
remain. -/
structure SearchSel where
  total : Nat
  selected : List Nat
  continuation : Option Nat
deriving Repr, DecidableEq

/-- Compute the selection of `search_log_file` over the match list. -/
def searchSel (matcher : String → Bool) (lines : List String) (a : SearchArgs) : SearchSel :=
  let found := matchIndices matcher lines
  let mtp := found.drop a.skip_matches
  let sel :=
    match a.max_matches with
    | some mm => mtp.take mm
    | none =>
      searchCollect a.max_tokens (fun m => estimate (matchBlockText lines a.cb a.ca m)) mtp 0 false
  ⟨found.length,
   sel,
   if a.skip_matches + sel.length < found.length then some (a.skip_matches + sel.length)
   else none⟩

/-- Outcome of `search_log_file`: a validation error, the distinct
"no matches" and "no more matches after skipping" reports, or a selection
of matches with its continuation cursor. -/
inductive SearchResult where
  | invalid (msg : String)
  | noMatches
  | noMore (total skipped : Nat)
  | results (total : Nat) (skip : Nat) (selected : List Nat) (continuation : Option Nat)
deriving Repr, DecidableEq

/-- The `search_log_file` handler after the file checks and regex
compilation (the `skip_matches < 0` check cannot fire on `Nat` and is
omitted). -/
def search_log_file (matcher : String → Bool) (lines : List String) (a : SearchArgs) :
    SearchResult :=
  if 10 < a.cb then .invalid "Error: context_before must be between 0 and 10"
  else if 10 < a.ca then .invalid "Error: context_after must be between 0 and 10"
  else
    match searchModeErr a with
    | some m => .invalid m
    | none =>
      if (matchIndices matcher lines).isEmpty then .noMatches
      else if ((matchIndices matcher lines).drop a.skip_matches).isEmpty then
        .noMore (matchIndices matcher lines).length a.skip_matches
      else
        .results (searchSel matcher lines a).total a.skip_matches
          (searchSel matcher lines a).selected (searchSel matcher lines a).continuation

/-- Validity of `search_log_file` arguments (the checks the handler
performs). -/
def searchArgsValid (a : SearchArgs) : Bool :=
  decide (a.cb ≤ 10) && decide (a.ca ≤ 10) && (searchModeErr a).isNone

/-! ### head_log, tail_log, read_log_range -/

/-- The `lines`-cap test of `head_log`/`tail_log`:
`num_lines is not None and len(lines) >= num_lines`. -/
def lineCapReached (numLines : Option Nat) (cnt : Nat) : Bool :=
  match numLines with
  | some n => decide (n ≤ cnt)
  | none => false

/-- The accumulation loop shared by `head_log` (over the lines in order)
and `tail_log` (over the reversed lines): stop at the line cap, or once
one line is in, at the token budget; always force the first line. `cnt`
carries `len(lines)`, `est` the running token estimate. -/
def headCollect (maxTok : Nat) (numLines : Option Nat) : List String → Nat → Nat → List String
  | [], _, _ => []
  | l :: ls, cnt, est =>
    if lineCapReached numLines cnt then []
    else if cnt ≠ 0 ∧ maxTok < est + estimate l then []
    else l :: headCollect maxTok numLines ls (cnt + 1) (est + estimate l)

/-- Structured outcome of `head_log` (the shown range is lines
`1..window.length`). -/
structure HeadOutput where
  total_lines : Nat
  window : List String
  est : Nat
deriving Repr, DecidableEq

/-- The `head_log` handler after the file checks (`max_tokens` is clamped
with `min(..., 100000)`; there is no validation branch). -/
def head_log (all : List String) (numLines : Option Nat) (max_tokens : Nat) : HeadOutput :=
  let mt := min max_tokens 100000
  let w := headCollect mt numLines all 0 0
  ⟨all.length, w, (w.map estimate).sum⟩

/-- Structured outcome of `tail_log` (the shown range is lines
`start_line..total_lines`, with `start_line = total_lines - len(lines) + 1`). -/
structure TailOutput where
  total_lines : Nat
  window : List String
  start_line : Nat
  est : Nat
deriving Repr, DecidableEq

/-- The `tail_log` handler after the file checks: the loop body is
identical to `head_log`'s but iterates `reversed(all_lines)` and inserts
at the front, so the window is the reversal of the collected list. -/
def tail_log (all : List String) (numLines : Option Nat) (max_tokens : Nat) : TailOutput :=
  let mt := min max_tokens 100000
  let w := (headCollect mt numLines all.reverse 0 0).reverse
  ⟨all.length, w, all.length - w.length + 1, (w.map estimate).sum⟩

/-- The token-budget loop of `read_log_range` over the requested slice
(first line forced, later lines only while the budget holds). -/
def rangeCollect (maxTok : Nat) : List String → Nat → Nat → List String
  | [], _, _ => []
  | l :: ls, cnt, est =>
    if cnt ≠ 0 ∧ maxTok < est + estimate l then []
    else l :: rangeCollect maxTok ls (cnt + 1) (est + estimate l)

/-- The `end_line is not None and end_line < start_line` validation test. -/
def endLtStart (end_line : Option Nat) (start_line : Nat) : Bool :=
  match end_line with
  | some e => decide (e < start_line)
  | none => false

/-- Structured outcome of a successful `read_log_range` call
(`actual_end` is the 1-based last emitted line; the continuation cursor
`start_line=actual_end + 1` is offered iff more file content remains). -/
structure RangeOutput where
  total_lines : Nat
  start_line : Nat
  actual_end : Nat
  window : List String
  est : Nat
  continuation : Option Nat
deriving Repr, DecidableEq

/-- The emitted window of `read_log_range`: the token-budget loop over
the requested slice `[start_line - 1, min(end_line ?? total, total))` of
the file's lines (`effective_end` in the source). -/
def rangeWindow (all : List String) (start_line : Nat) (end_line : Option Nat)
    (max_tokens : Nat) : List String :=
  rangeCollect (min max_tokens 100000)
    ((all.take (min (end_line.getD all.length) all.length)).drop (start_line - 1)) 0 0

/-- Assemble the successful `read_log_range` response:
`actual_end = start_line - 1 + len(lines)`, continuation
`start_line=actual_end + 1` offered iff more file content remains. -/
def rangeOutput (all : List String) (start_line : Nat) (end_line : Option Nat)
    (max_tokens : Nat) : RangeOutput :=
  ⟨all.length, start_line,
   start_line - 1 + (rangeWindow all start_line end_line max_tokens).length,
   rangeWindow all start_line end_line max_tokens,
   ((rangeWindow all start_line end_line max_tokens).map estimate).sum,
   if start_line - 1 + (rangeWindow all start_line end_line max_tokens).length < all.length then
     some (start_line - 1 + (rangeWindow all start_line end_line max_tokens).length + 1)
   else none⟩

/-- The `read_log_range` handler after the file checks: validates
`start_line >= 1`, `end_line >= start_line`, and — unlike
`read_log_paginated` — rejects `start_line` beyond the file length
(`max_tokens` is clamped with `min(..., 100000)`, not validated); then
emits the requested range under the token budget. -/
def read_log_range (all : List String) (start_line : Nat) (end_line : Option Nat)
    (max_tokens : Nat) : Except String RangeOutput :=
  if start_line < 1 then .error "Error: start_line must be >= 1"
  else if endLtStart end_line start_line then .error "Error: end_line must be >= start_line"
  else if all.length < start_line then
    .error ("Error: start_line " ++ toString start_line ++ " exceeds file length ("
      ++ toString all.length ++ " lines)")
  else .ok (rangeOutput all start_line end_line max_tokens)

/-! ### find_errors -/

/-- The incremental line indices of a `find_errors` context block: the
walked range minus the seen-line set (the code skips `i in shown_indices`
as it walks and adds each rendered index to the set; since the walked
indices are distinct, filtering against the set as of block start is
equivalent). -/
def blockIdxs (shown : List Nat) (is : List Nat) : List Nat :=
  is.filter (fun i => decide (¬ i ∈ shown))

/-- The rendered text of the given (incremental) indices of a
`find_errors` context block, the flagged line marked `>>>`. -/
def blockLinesText (lines : List String) (e : Nat) (idxs : List Nat) : String :=
  idxs.foldr
    (fun i acc =>
      (if i = e then ">>> " else "    ") ++ fmt6 (i + 1) ++ " | " ++ lines.getD i "" ++ acc)
    ""

/-- One deduplicated context block of `find_errors`: the clamped range
`[e - context, e + context]` minus already-shown lines, closed by a
60-dash separator; returns the incremental text and the newly rendered
indices. -/
def errBlock (lines : List String) (ctx : Nat) (shown : List Nat) (e : Nat) :
    String × List Nat :=
  (blockLinesText lines e
      (blockIdxs shown (List.range' (e - ctx) (min lines.length (e + ctx + 1) - (e - ctx))))
    ++ "\n" ++ String.mk (List.replicate 60 '-') ++ "\n\n",
   blockIdxs shown (List.range' (e - ctx) (min lines.length (e + ctx + 1) - (e - ctx))))

/-- The block-accumulation loop of `find_errors`: each block's token cost
counts only its incremental (not-yet-shown) lines; after the first block,
stop once the budget would be exceeded. `cnt` carries `shown_errors`. -/
def errLoop (lines : List String) (ctx maxTok : Nat) :
    List Nat → List Nat → Nat → Nat → List (String × List Nat)
  | [], _, _, _ => []
  | e :: es, shown, est, cnt =>
    if cnt ≠ 0 ∧ maxTok < est + estimate (errBlock lines ctx shown e).1 then []
    else
      errBlock lines ctx shown e ::
        errLoop lines ctx maxTok es (shown ++ (errBlock lines ctx shown e).2)
          (est + estimate (errBlock lines ctx shown e).1) (cnt + 1)

/-- The metadata header of a `find_errors` report (its token estimate
seeds the running total of the block loop). -/
def errHeader (filePath : String) (fs total found : Nat) (warn : Bool) (ctx : Nat) : String :=
  "Errors in " ++ filePath ++ "\n"
    ++ "File size: " ++ toString fs ++ " bytes, " ++ toString total ++ " lines\n"
    ++ "Found " ++ toString found ++ " error lines"
    ++ (if warn then " (including warnings)" else "") ++ "\n"
    ++ "Context: " ++ toString ctx ++ " lines before/after\n"
    ++ "\n" ++ String.mk (List.replicate 60 '=') ++ "\n\n"

/-- Outcome of `find_errors`: no matching lines, or the emitted context
blocks (each with the indices it rendered) out of `total_errors` hits. -/
inductive ErrResult where
  | noErrors (total_lines : Nat)
  | found (blocks : List (String × List Nat)) (total_errors : Nat)
deriving Repr, DecidableEq

/-- The `find_errors` handler after the file checks: `context_lines` is
clamped with `min(..., 10)` and `max_tokens` with `min(..., 100000)` (no
validation branch); the fixed error-pattern alternation (extended with
warning patterns when `include_warnings` is set) is abstracted as
`matcher`. -/
def find_errors (matcher : String → Bool) (lines : List String) (filePath : String)
    (file_size : Nat) (context_lines : Nat) (include_warnings : Bool) (max_tokens : Nat) :
    ErrResult :=
  if (matchIndices matcher lines).isEmpty then .noErrors lines.length
  else
    .found
      (errLoop lines (min context_lines 10) (min max_tokens 100000) (matchIndices matcher lines)
        []
        (estimate (errHeader filePath file_size lines.length (matchIndices matcher lines).length
          include_warnings (min context_lines 10)))
        0)
      (matchIndices matcher lines).length

/-- All line indices rendered across the context blocks of a
`find_errors` result. -/
def renderedIdxs : ErrResult → List Nat
  | .noErrors _ => []
  | .found bs _ => (bs.map Prod.snd).flatten

/-- A 20000-character line (5000 estimated tokens), exceeding the default
4000-token budget on its own. -/
def bigA : String := String.mk (List.replicate 20000 'a')

/-! ## Lemmas -/

/-- Taking `min k (length l)` elements is the same as taking `k`. -/
theorem take_min {α : Type} (l : List α) (k : Nat) : l.take (min k l.length) = l.take k := by
  rcases le_total k l.length with h | h
  · rw [min_eq_left h]
  · rw [min_eq_right h, List.take_length, List.take_of_length_le h]

/-- A list is the `take` of its own length. -/
theorem take_own_length {α : Type} (l : List α) (k : Nat) :
    l.take ((l.take k).length) = l.take k := by
  rw [List.length_take, take_min]

/-- The token-mode window of `read_log_paginated` is a prefix of the
remaining lines: it equals the `take` of its own length. -/
theorem pagCollect_eq_take (M : Nat) (ls : List String) (est : Nat) (ne : Bool) :
    pagCollect M ls est ne = ls.take (pagCollect M ls est ne).length := by
  induction ls generalizing est ne with
  | nil => simp [pagCollect]
  | cons l ls ih =>
    rw [pagCollect]
    split
    · split
      · have h := ih (est + estimate l) true
        simp only [List.length_cons, List.take_succ_cons]
        exact congrArg (l :: ·) h
      · simp
    · simp

/-- The token-mode selection of `search_log_file` is a prefix of the
unskipped matches: it equals the `take` of its own length. -/
theorem searchCollect_eq_take (M : Nat) (cost : Nat → Nat) (ms : List Nat) (est : Nat)
    (ne : Bool) :
    searchCollect M cost ms est ne = ms.take (searchCollect M cost ms est ne).length := by
  induction ms generalizing est ne with
  | nil => simp [searchCollect]
  | cons m ms ih =>
    rw [searchCollect]
    split
    · have h := ih (est + cost m) true
      simp only [List.length_cons, List.take_succ_cons]
      exact congrArg (m :: ·) h
    · simp

/-- In either mode, the window of `read_log_paginated` is a prefix of the
lines from `start_line` on. -/
theorem pagWindow_eq_take (all : List String) (a : PagArgs) :
    pagWindow all a = (all.drop (a.start_line - 1)).take (pagWindow all a).length := by
  unfold pagWindow
  cases a.num_lines with
  | some n => rw [take_own_length]
  | none => exact pagCollect_eq_take _ _ _ _

/-- In either mode, the selection of `search_log_file` is a prefix of the
unskipped matches. -/
theorem searchSel_eq_take (matcher : String → Bool) (lines : List String) (a : SearchArgs) :
    (searchSel matcher lines a).selected =
      ((matchIndices matcher lines).drop a.skip_matches).take
        (searchSel matcher lines a).selected.length := by
  unfold searchSel
  cases a.max_matches with
  | some mm => simp only; rw [take_own_length]
  | none => simp only; exact searchCollect_eq_take _ _ _ _ _

/-- The loops of `head_log` (with a line cap) and `read_log_range` (over
the pre-sliced range) agree: capping at `N - cnt` further lines is the
same as iterating over only the first `N - cnt` remaining lines. -/
theorem headCollect_eq_rangeCollect (M N : Nat) (ls : List String) (cnt est : Nat)
    (h : cnt ≤ N) :
    headCollect M (some N) ls cnt est = rangeCollect M (ls.take (N - cnt)) cnt est := by
  induction ls generalizing cnt est with
  | nil => simp [headCollect, rangeCollect]
  | cons l ls ih =>
    rcases eq_or_lt_of_le h with hEq | hLt
    · subst hEq
      simp [headCollect, rangeCollect, lineCapReached]
    · have hcap : lineCapReached (some N) cnt = false := by
        simp [lineCapReached]; omega
      have htake : (l :: ls).take (N - cnt) = l :: ls.take (N - (cnt + 1)) := by
        have : N - cnt = (N - (cnt + 1)) + 1 := by omega
        rw [this, List.take_succ_cons]
      rw [headCollect, hcap, htake, rangeCollect]
      simp only [Bool.false_eq_true, if_false]
      split
      · rfl
      · exact congrArg (l :: ·) (ih (cnt + 1) (est + estimate l) (by omega))

/-- When the token budget admits all of the next `N - cnt` lines, the
capped loop emits exactly those lines. -/
theorem headCollect_all (M N : Nat) (ls : List String) (cnt est : Nat)
    (hlen : N - cnt ≤ ls.length)
    (hbud : est + ((ls.take (N - cnt)).map estimate).sum ≤ M) :
    headCollect M (some N) ls cnt est = ls.take (N - cnt) := by
  induction ls generalizing cnt est with
  | nil =>
    have : N - cnt = 0 := by simpa using hlen
    simp [headCollect, this]
  | cons l ls ih =>
    rcases le_or_lt N cnt with hge | hLt
    · have : N - cnt = 0 := by omega
      simp [headCollect, lineCapReached, this, hge]
    · have hcap : lineCapReached (some N) cnt = false := by
        simp [lineCapReached]; omega
      have hNc : N - cnt = (N - (cnt + 1)) + 1 := by omega
      have htake : (l :: ls).take (N - cnt) = l :: ls.take (N - (cnt + 1)) := by
        rw [hNc, List.take_succ_cons]
      rw [htake] at hbud ⊢
      simp only [List.map_cons, List.sum_cons] at hbud
      have hfit : ¬ (cnt ≠ 0 ∧ M < est + estimate l) := by
        rintro ⟨-, hM⟩
        omega
      rw [headCollect, hcap]
      simp only [Bool.false_eq_true, if_false, if_neg hfit]
      refine congrArg (l :: ·) (ih (cnt + 1) (est + estimate l) ?_ ?_)
      · simpa [hNc] using hlen
      · omega

/-- With valid arguments, `read_log_paginated` succeeds and returns the
assembled output. -/
theorem read_log_paginated_ok (all : List String) (fs : Nat) (fm : ℚ) (a : PagArgs)
    (h : pagArgsValid a = true) :
    read_log_paginated all fs fm a = .ok (pagOutput all fs fm a) := by
  unfold pagArgsValid at h
  unfold read_log_paginated
  cases hn : a.num_lines with
  | some n =>
    rw [hn] at h
    simp only [Bool.and_eq_true, decide_eq_true_eq] at h
    rw [if_neg (by omega)]
    simp only [hn]
    rw [if_neg (by omega)]
  | none =>
    rw [hn] at h
    simp only [Bool.and_eq_true, decide_eq_true_eq] at h
    rw [if_neg (by omega)]
    simp only [hn]
    rw [if_neg (by omega)]

/-- With valid arguments, at least one match, and at least one unskipped
match, `search_log_file` returns the computed selection. -/
theorem search_log_file_results (matcher : String → Bool) (lines : List String)
    (a : SearchArgs) (hv : searchArgsValid a = true)
    (hne : (matchIndices matcher lines).isEmpty = false)
    (hmore : ((matchIndices matcher lines).drop a.skip_matches).isEmpty = false) :
    search_log_file matcher lines a =
      .results (searchSel matcher lines a).total a.skip_matches
        (searchSel matcher lines a).selected (searchSel matcher lines a).continuation := by
  unfold searchArgsValid at hv
  simp only [Bool.and_eq_true, decide_eq_true_eq, Option.isNone_iff_eq_none] at hv
  obtain ⟨⟨hcb, hca⟩, hmode⟩ := hv
  unfold search_log_file
  rw [if_neg (by omega), if_neg (by omega), hmode, hne, hmore]
  simp

/-- A nonempty list is not `isEmpty`. -/
theorem isEmpty_false_of_length_pos {α : Type} (l : List α) (h : 0 < l.length) :
    l.isEmpty = false := by
  cases l with
  | nil => simp at h
  | cons x xs => rfl

/-! ## Claims -/

/-- C1: the absolute-path containment check of `resolve_log_file` is a
plain string-prefix comparison: with `/var/log` permitted it admits the
canonical path `/var/log2/x`, which separator-aware containment (the
invariant the claim states) rejects.  The code therefore violates the
claimed containment invariant. -/
theorem c1_containment_code_bug :
    resolve_log_file_abs ["/var/log"] "/var/log2/x" = some "/var/log" ∧
    specContains "/var/log" "/var/log2/x" = false := by
  constructor
  · rfl
  · rfl

/-- C2: `read_log_paginated` in token mode emits ZERO lines when the
first line's estimated cost alone exceeds `max_tokens` (here a non-empty
one-line file, `start_line = 1 ≤ total_lines`, `max_tokens = 1`), because
the accumulation condition reads `if lines or ...` where its own comment
("Always include at least one line") requires `if not lines or ...`. -/
theorem c2_zero_lines_code_bug :
    read_log_paginated ["12345678"] 8 0 { start_line := 1, max_tokens := 1 } =
      .ok { warnings := [], file_size := 8, file_mtime := 0, total_lines := 1,
            start_line := 1, window := [], end_line := 0, est := 0,
            continuation := some 1 } := by
  rfl

/-- C3: `read_log_paginated` in token mode emits a window whose estimated
cost, even excluding the first forced line, exceeds `max_tokens`: with a
2-token budget it emits a second line costing 3 tokens, because once one
line is in, `if lines or ...` short-circuits to true and lines are
appended while the running estimate is merely below the budget. -/
theorem c3_budget_overshoot_code_bug :
    read_log_paginated ["abcd", "abcdefghijkl"] 16 0 { start_line := 1, max_tokens := 2 } =
      .ok { warnings := [], file_size := 16, file_mtime := 0, total_lines := 2,
            start_line := 1, window := ["abcd", "abcdefghijkl"], end_line := 2, est := 4,
            continuation := none } ∧
    2 < (((pagOutput ["abcd", "abcdefghijkl"] 16 0
            { start_line := 1, max_tokens := 2 }).window.drop 1).map estimate).sum := by
  constructor
  · rfl
  · decide

/-- C4 counterexample: `get_log_content` called with
`max_tokens = 200000`, far beyond the documented maximum of 100000,
does not fail — it silently clamps the value and returns the normal
(untruncated) result. -/
theorem c4_counterexample :
    get_log_content "hi" 200000 =
      { truncated := false, body := "hi", shown_tokens := 0, total_tokens := 0 } := by
  rfl

/-- C4 (amended): for parameters outside their documented bounds the
behavior is split — `get_log_content`, `head_log`, `tail_log` and
`read_log_range` silently clamp `max_tokens` to at most 100000 and
proceed, `find_errors` silently clamps both `context_lines` to at most 10
and `max_tokens` to at most 100000 and proceeds with the adjusted values,
while `read_log_paginated` and `search_log_file` reject a token-mode
`max_tokens` outside `[1, 100000]` with an error message instead of
proceeding. -/
theorem c4_amended :
    (∀ (content : String) (mt : Nat), 100000 ≤ mt →
      get_log_content content mt = get_log_content content 100000) ∧
    (∀ (all : List String) (nl : Option Nat) (mt : Nat), 100000 ≤ mt →
      head_log all nl mt = head_log all nl 100000) ∧
    (∀ (all : List String) (nl : Option Nat) (mt : Nat), 100000 ≤ mt →
      tail_log all nl mt = tail_log all nl 100000) ∧
    (∀ (all : List String) (s : Nat) (e : Option Nat) (mt : Nat), 100000 ≤ mt →
      read_log_range all s e mt = read_log_range all s e 100000) ∧
    (∀ (matcher : String → Bool) (lines : List String) (p : String) (fs cl : Nat) (iw : Bool)
       (mt : Nat), 10 ≤ cl → 100000 ≤ mt →
      find_errors matcher lines p fs cl iw mt = find_errors matcher lines p fs 10 iw 100000) ∧
    (∀ (all : List String) (fs : Nat) (fm : ℚ) (a : PagArgs),
      a.num_lines = none → 1 ≤ a.start_line →
      (a.max_tokens < 1 ∨ 100000 < a.max_tokens) →
      read_log_paginated all fs fm a =
        .error "Error: max_tokens must be between 1 and 100000") ∧
    (∀ (matcher : String → Bool) (lines : List String) (a : SearchArgs),
      a.max_matches = none → a.cb ≤ 10 → a.ca ≤ 10 →
      (a.max_tokens < 1 ∨ 100000 < a.max_tokens) →
      search_log_file matcher lines a =
        .invalid "Error: max_tokens must be between 1 and 100000") := by
  refine ⟨?_, ?_, ?_, ?_, ?_, ?_, ?_⟩
  · intro content mt h
    unfold get_log_content
    rw [min_eq_right h, min_self]
  · intro all nl mt h
    unfold head_log
    rw [min_eq_right h, min_self]
  · intro all nl mt h
    unfold tail_log
    rw [min_eq_right h, min_self]
  · intro all s e mt h
    unfold read_log_range rangeOutput rangeWindow
    rw [min_eq_right h, min_self]
  · intro matcher lines p fs cl iw mt hcl hmt
    unfold find_errors
    rw [min_eq_right hcl, min_eq_right hmt, min_self, min_self]
  · intro all fs fm a hn hs hmt
    unfold read_log_paginated
    rw [if_neg (by omega), hn]
    rw [if_pos (by omega)]
  · intro matcher lines a hmm hcb hca hmt
    unfold search_log_file
    rw [if_neg (by omega), if_neg (by omega)]
    rw [show searchModeErr a = some "Error: max_tokens must be between 1 and 100000" by
      unfold searchModeErr
      rw [hmm]
      rw [if_pos (by omega)]]

/-- C4 witness: concrete out-of-bound calls — `get_log_content`,
`head_log`, `tail_log`, `read_log_range` and `find_errors` proceed with
clamped values, while `read_log_paginated` and `search_log_file`
reject. -/
theorem c4_amended_witness :
    get_log_content "hi" 200000 = get_log_content "hi" 100000 ∧
    head_log ["x"] none 200000 = head_log ["x"] none 100000 ∧
    tail_log ["x"] none 200000 = tail_log ["x"] none 100000 ∧
    read_log_range ["x"] 1 none 200000 = read_log_range ["x"] 1 none 100000 ∧
    find_errors (fun l => !l.isEmpty) ["x"] "/var/log/a.log" 1 11 false 200000 =
      find_errors (fun l => !l.isEmpty) ["x"] "/var/log/a.log" 1 10 false 100000 ∧
    read_log_paginated ["x"] 1 0 { max_tokens := 0 } =
      .error "Error: max_tokens must be between 1 and 100000" ∧
    search_log_file (fun l => !l.isEmpty) ["x"] { max_tokens := 0 } =
      .invalid "Error: max_tokens must be between 1 and 100000" :=
  ⟨c4_amended.1 "hi" 200000 (by norm_num),
   c4_amended.2.1 ["x"] none 200000 (by norm_num),
   c4_amended.2.2.1 ["x"] none 200000 (by norm_num),
   c4_amended.2.2.2.1 ["x"] 1 none 200000 (by norm_num),
   c4_amended.2.2.2.2.1 (fun l => !l.isEmpty) ["x"] "/var/log/a.log" 1 11 false 200000
     (by norm_num) (by norm_num),
   c4_amended.2.2.2.2.2.1 ["x"] 1 0 { max_tokens := 0 } rfl (by norm_num)
     (Or.inl (by norm_num)),
   c4_amended.2.2.2.2.2.2 (fun l => !l.isEmpty) ["x"] { max_tokens := 0 } rfl
     (by decide) (by decide) (Or.inl (by norm_num))⟩

/-- C7: for `1 ≤ N ≤ totalLines` and the same `maxTokens`,
`read_log_range(file, 1, N)` and `head_log(file, lines=N)` emit exactly
the same window: same lines starting at line 1 and the same end line. -/
theorem c7_range_head_agree (all : List String) (N mt : Nat) (h1 : 1 ≤ N)
    (h2 : N ≤ all.length) :
    ∃ o, read_log_range all 1 (some N) mt = .ok o ∧
      o.window = (head_log all (some N) mt).window ∧
      o.start_line = 1 ∧
      o.actual_end = (head_log all (some N) mt).window.length := by
  have hw : rangeWindow all 1 (some N) mt = (head_log all (some N) mt).window := by
    show rangeCollect (min mt 100000) ((all.take (min N all.length)).drop (1 - 1)) 0 0 =
      headCollect (min mt 100000) (some N) all 0 0
    rw [show (1 : Nat) - 1 = 0 from rfl, List.drop_zero, min_eq_left h2]
    have h := headCollect_eq_rangeCollect (min mt 100000) N all 0 0 (by omega)
    rw [Nat.sub_zero] at h
    exact h.symm
  refine ⟨rangeOutput all 1 (some N) mt, ?_, hw, rfl, ?_⟩
  · unfold read_log_range
    have e2 : endLtStart (some N) 1 = false := by
      simp [endLtStart]
      omega
    have e3 : ¬ (all.length < 1) := by omega
    simp [e2, e3]
  · show 1 - 1 + (rangeWindow all 1 (some N) mt).length = _
    rw [hw]
    omega

/-- C7 witness: a concrete 3-line file with `N = 2`. -/
theorem c7_range_head_agree_witness :
    ∃ o, read_log_range ["aaaa\n", "bbbb\n", "cccc\n"] 1 (some 2) 4000 = .ok o ∧
      o.window = (head_log ["aaaa\n", "bbbb\n", "cccc\n"] (some 2) 4000).window ∧
      o.start_line = 1 ∧
      o.actual_end = (head_log ["aaaa\n", "bbbb\n", "cccc\n"] (some 2) 4000).window.length :=
  c7_range_head_agree ["aaaa\n", "bbbb\n", "cccc\n"] 2 4000 (by norm_num) (by norm_num)

/-- C8 counterexample: with the default `max_tokens = 4000`, a file of two
20000-character lines and `lines = 2` makes `tail_log` emit only the last
line — not the last 2 lines the claim requires — because the token budget
binds first. -/
theorem c8_counterexample :
    (tail_log [bigA, bigA] (some 2) 4000).window = [bigA] ∧
    (tail_log [bigA, bigA] (some 2) 4000).window ≠ [bigA, bigA] := by
  have hE : estimate bigA = 5000 := by
    unfold estimate bigA
    rw [String.length_mk, List.length_replicate]
  have hw : (tail_log [bigA, bigA] (some 2) 4000).window = [bigA] := by
    have h2 : headCollect (min 4000 100000) (some 2) [bigA, bigA] 0 0 = [bigA] := by
      rw [headCollect]
      rw [if_neg (by simp [lineCapReached])]
      rw [if_neg (by simp)]
      rw [headCollect]
      rw [if_neg (by simp [lineCapReached])]
      rw [if_pos (by refine ⟨by omega, ?_⟩; rw [hE]; norm_num)]
    unfold tail_log
    simp only
    rw [show ([bigA, bigA]).reverse = [bigA, bigA] from by simp]
    rw [h2]
    simp
  exact ⟨hw, by rw [hw]; simp⟩

/-- C8 (amended): provided the estimated cost of the last `N` lines fits
the (clamped) token budget, `tail_log(file, lines=N)` with `1 ≤ N ≤
totalLines` emits exactly the last `N` lines in original order, and
reports starting line `totalLines - emitted + 1`. -/
theorem c8_amended (all : List String) (N mt : Nat) (h1 : 1 ≤ N) (h2 : N ≤ all.length)
    (h3 : ((all.drop (all.length - N)).map estimate).sum ≤ min mt 100000) :
    (tail_log all (some N) mt).window = all.drop (all.length - N) ∧
    (tail_log all (some N) mt).start_line = all.length - N + 1 := by
  have hrev : all.reverse.take N = (all.drop (all.length - N)).reverse := by
    have h := (List.reverse_take (l := all.reverse) (n := N))
    rw [List.reverse_reverse, List.length_reverse] at h
    calc all.reverse.take N = (all.reverse.take N).reverse.reverse := by
          rw [List.reverse_reverse]
      _ = (all.drop (all.length - N)).reverse := by rw [h]
  have hsum : 0 + ((all.reverse.take N).map estimate).sum ≤ min mt 100000 := by
    rw [hrev, Nat.zero_add, List.map_reverse, List.sum_reverse]
    exact h3
  have hcoll : headCollect (min mt 100000) (some N) all.reverse 0 0 = all.reverse.take N := by
    have h := headCollect_all (min mt 100000) N all.reverse 0 0
      (by rw [Nat.sub_zero, List.length_reverse]; exact h2)
      (by rw [Nat.sub_zero]; exact hsum)
    rwa [Nat.sub_zero] at h
  have hw : (tail_log all (some N) mt).window = all.drop (all.length - N) := by
    show (headCollect (min mt 100000) (some N) all.reverse 0 0).reverse = _
    rw [hcoll, hrev, List.reverse_reverse]
  refine ⟨hw, ?_⟩
  show all.length - (tail_log all (some N) mt).window.length + 1 = all.length - N + 1
  rw [hw, List.length_drop]
  congr 1
  omega

/-- C8 witness: a concrete 3-line file, `N = 2`, budget ample. -/
theorem c8_amended_witness :
    (tail_log ["aaaa\n", "bbbb\n", "cccc\n"] (some 2) 4000).window =
      ["aaaa\n", "bbbb\n", "cccc\n"].drop 1 ∧
    (tail_log ["aaaa\n", "bbbb\n", "cccc\n"] (some 2) 4000).start_line = 2 :=
  c8_amended ["aaaa\n", "bbbb\n", "cccc\n"] 2 4000 (by norm_num) (by norm_num) (by decide)

/-- C10: in token mode, `read_log_paginated` with `startLine` beyond the
file length succeeds with the empty window `[startLine, startLine - 1]`
(0 lines) and no continuation hint, while `read_log_range` rejects the
same `startLine` with an error. -/
theorem c10_beyond_eof (all : List String) (fs : Nat) (fm : ℚ) (a : PagArgs)
    (h1 : 1 ≤ a.start_line) (hn : a.num_lines = none)
    (h2 : 1 ≤ a.max_tokens) (h3 : a.max_tokens ≤ 100000)
    (hbig : all.length < a.start_line) :
    read_log_paginated all fs fm a = .ok (pagOutput all fs fm a) ∧
    (pagOutput all fs fm a).window = [] ∧
    (pagOutput all fs fm a).end_line = a.start_line - 1 ∧
    (pagOutput all fs fm a).continuation = none ∧
    read_log_range all a.start_line none a.max_tokens =
      .error ("Error: start_line " ++ toString a.start_line ++ " exceeds file length ("
        ++ toString all.length ++ " lines)") := by
  have hdrop : all.drop (a.start_line - 1) = [] :=
    List.drop_eq_nil_of_le (by omega)
  have hwin : pagWindow all a = [] := by
    unfold pagWindow
    rw [hn, hdrop]
    rfl
  have hend : pagEndLine all a = a.start_line - 1 := by
    unfold pagEndLine
    rw [hn, hwin]
    rfl
  refine ⟨?_, hwin, hend, ?_, ?_⟩
  · unfold read_log_paginated
    rw [if_neg (by omega), hn, if_neg (by omega)]
  · show (if pagEndLine all a < all.length then some (pagEndLine all a + 1) else none) = none
    rw [hend, if_neg (by omega)]
  · unfold read_log_range
    rw [if_neg (by omega)]
    rw [show endLtStart none a.start_line = false from rfl]
    rw [if_neg (by simp), if_pos hbig]

/-- C10 witness: a 2-line file read from line 5. -/
theorem c10_beyond_eof_witness :
    read_log_paginated ["a\n", "b\n"] 4 0 { start_line := 5 } =
      .ok (pagOutput ["a\n", "b\n"] 4 0 { start_line := 5 }) ∧
    (pagOutput ["a\n", "b\n"] 4 0 { start_line := 5 }).window = [] ∧
    (pagOutput ["a\n", "b\n"] 4 0 { start_line := 5 }).end_line = 4 ∧
    (pagOutput ["a\n", "b\n"] 4 0 { start_line := 5 }).continuation = none ∧
    read_log_range ["a\n", "b\n"] 5 none 4000 =
      .error ("Error: start_line " ++ toString 5 ++ " exceeds file length ("
        ++ toString 2 ++ " lines)") := by
  have h := c10_beyond_eof ["a\n", "b\n"] 4 0 { start_line := 5 }
    (by norm_num) rfl (by norm_num) (by norm_num) (by norm_num)
  simpa using h

/-- C5: a `read_log_paginated` call whose supplied fingerprint mismatches
the file's current state — `expected_size` differing from the size, or
`expected_mtime` differing from the mtime by more than the 0.001
tolerance, or both — still succeeds, with a non-empty staleness-warning
block prepended, and its window, end line and continuation are exactly
those of the same call without a fingerprint: mismatch is advisory,
never fatal, and never alters the emitted lines. -/
theorem c5_staleness_advisory (all : List String) (fs : Nat) (fm : ℚ) (a : PagArgs)
    (hv : pagArgsValid a = true)
    (hmis : (∃ es, a.expected_size = some es ∧ es ≠ fs) ∨
            (∃ em, a.expected_mtime = some em ∧ 1 / 1000 < |em - fm|)) :
    read_log_paginated all fs fm a = .ok (pagOutput all fs fm a) ∧
    (pagOutput all fs fm a).warnings ≠ [] ∧
    (pagOutput all fs fm a).window =
      (pagOutput all fs fm { a with expected_size := none, expected_mtime := none }).window ∧
    (pagOutput all fs fm a).end_line =
      (pagOutput all fs fm { a with expected_size := none, expected_mtime := none }).end_line ∧
    (pagOutput all fs fm a).continuation =
      (pagOutput all fs fm { a with expected_size := none, expected_mtime := none }).continuation := by
  refine ⟨read_log_paginated_ok all fs fm a hv, ?_, rfl, rfl, rfl⟩
  show pagWarnings fs fm a ≠ []
  unfold pagWarnings
  rcases hmis with ⟨es, hes, hne⟩ | ⟨em, hem, hfar⟩
  · rw [hes]
    simp only [if_pos hne]
    simp
  · rw [hem]
    simp only [if_pos hfar]
    simp

/-- C5 witness: a one-line file, first with its size (7 bytes) differing
from the supplied `expected_size = 99`, then with its mtime (0) differing
from the supplied `expected_mtime = 1` by more than the tolerance. -/
theorem c5_staleness_advisory_witness :
    (read_log_paginated ["abcd\n"] 7 0 { expected_size := some 99 } =
      .ok (pagOutput ["abcd\n"] 7 0 { expected_size := some 99 }) ∧
    (pagOutput ["abcd\n"] 7 0 { expected_size := some 99 }).warnings ≠ [] ∧
    (pagOutput ["abcd\n"] 7 0 { expected_size := some 99 }).window =
      (pagOutput ["abcd\n"] 7 0
        { ({ expected_size := some 99 } : PagArgs) with
          expected_size := none, expected_mtime := none }).window ∧
    (pagOutput ["abcd\n"] 7 0 { expected_size := some 99 }).end_line =
      (pagOutput ["abcd\n"] 7 0
        { ({ expected_size := some 99 } : PagArgs) with
          expected_size := none, expected_mtime := none }).end_line ∧
    (pagOutput ["abcd\n"] 7 0 { expected_size := some 99 }).continuation =
      (pagOutput ["abcd\n"] 7 0
        { ({ expected_size := some 99 } : PagArgs) with
          expected_size := none, expected_mtime := none }).continuation) ∧
    (read_log_paginated ["abcd\n"] 7 0 { expected_mtime := some 1 } =
      .ok (pagOutput ["abcd\n"] 7 0 { expected_mtime := some 1 }) ∧
    (pagOutput ["abcd\n"] 7 0 { expected_mtime := some 1 }).warnings ≠ [] ∧
    (pagOutput ["abcd\n"] 7 0 { expected_mtime := some 1 }).window =
      (pagOutput ["abcd\n"] 7 0
        { ({ expected_mtime := some 1 } : PagArgs) with
          expected_size := none, expected_mtime := none }).window ∧
    (pagOutput ["abcd\n"] 7 0 { expected_mtime := some 1 }).end_line =
      (pagOutput ["abcd\n"] 7 0
        { ({ expected_mtime := some 1 } : PagArgs) with
          expected_size := none, expected_mtime := none }).end_line ∧
    (pagOutput ["abcd\n"] 7 0 { expected_mtime := some 1 }).continuation =
      (pagOutput ["abcd\n"] 7 0
        { ({ expected_mtime := some 1 } : PagArgs) with
          expected_size := none, expected_mtime := none }).continuation) :=
  ⟨c5_staleness_advisory ["abcd\n"] 7 0 { expected_size := some 99 }
    (by decide) (Or.inl ⟨99, rfl, by decide⟩),
   c5_staleness_advisory ["abcd\n"] 7 0 { expected_mtime := some 1 }
    (by decide) (Or.inr ⟨1, rfl, by norm_num⟩)⟩

/-- A block's incremental indices avoid the seen-line set. -/
theorem blockIdxs_not_shown (shown is : List Nat) (i : Nat) (h : i ∈ blockIdxs shown is) :
    i ∉ shown := by
  have := List.of_mem_filter h
  simpa using this

/-- A block's incremental indices are distinct (the walked range is). -/
theorem errBlock_snd_nodup (lines : List String) (ctx : Nat) (shown : List Nat) (e : Nat) :
    (errBlock lines ctx shown e).2.Nodup :=
  List.Nodup.filter _ (List.nodup_range' _ _)

/-- Across the whole block loop of `find_errors`, every rendered line
index is rendered at most once, and none of them was in the initial
seen-line set. -/
theorem errLoop_nodup (lines : List String) (ctx M : Nat) (es : List Nat) :
    ∀ (shown : List Nat) (est cnt : Nat),
      (((errLoop lines ctx M es shown est cnt).map Prod.snd).flatten).Nodup ∧
      ∀ i ∈ ((errLoop lines ctx M es shown est cnt).map Prod.snd).flatten, i ∉ shown := by
  induction es with
  | nil => intro shown est cnt; simp [errLoop]
  | cons e es ih =>
    intro shown est cnt
    rw [errLoop]
    split
    · simp
    · simp only [List.map_cons, List.flatten_cons]
      have hbn : (errBlock lines ctx shown e).2.Nodup := errBlock_snd_nodup lines ctx shown e
      have hbs : ∀ i ∈ (errBlock lines ctx shown e).2, i ∉ shown :=
        fun i hi => blockIdxs_not_shown shown _ i hi
      obtain ⟨ihn, ihs⟩ := ih (shown ++ (errBlock lines ctx shown e).2)
        (est + estimate (errBlock lines ctx shown e).1) (cnt + 1)
      constructor
      · rw [List.nodup_append]
        refine ⟨hbn, ihn, ?_⟩
        intro x hx hx'
        exact (ihs x hx') (List.mem_append.mpr (Or.inr hx))
      · intro i hi
        rcases List.mem_append.mp hi with h | h
        · exact hbs i h
        · exact fun hmem => (ihs i h) (List.mem_append.mpr (Or.inl hmem))

/-- C9: in every `find_errors` result, each file line is rendered at most
once across all context blocks — the list of all rendered line indices
has no duplicates (deduplication via the seen-line set, whose incremental
lines are also exactly what each block's token-budget check counts). -/
theorem c9_no_duplicate_lines (matcher : String → Bool) (lines : List String) (p : String)
    (fs cl : Nat) (iw : Bool) (mt : Nat) :
    (renderedIdxs (find_errors matcher lines p fs cl iw mt)).Nodup := by
  unfold find_errors
  split
  · simp [renderedIdxs]
  · exact (errLoop_nodup lines (min cl 10) (min mt 100000) (matchIndices matcher lines)
      [] _ 0).1

/-- C6: on an unchanged file, feeding back the continuation cursor yields
the next contiguous window with no gap and no overlap.  For
`read_log_paginated` the next call starts at `end_line + 1` and the two
windows concatenate to one contiguous slice of the file from the first
start line; for `search_log_file` the cursor is
`skip_matches + emitted`, and the two selections concatenate to one
contiguous slice of the match list after the original skip. -/
theorem c6_cursor_roundtrip :
    (∀ (all : List String) (fs : Nat) (fm : ℚ) (a : PagArgs) (c : Nat),
      pagArgsValid a = true →
      (pagOutput all fs fm a).continuation = some c →
      read_log_paginated all fs fm a = .ok (pagOutput all fs fm a) ∧
      read_log_paginated all fs fm { a with start_line := c } =
        .ok (pagOutput all fs fm { a with start_line := c }) ∧
      (pagOutput all fs fm { a with start_line := c }).start_line =
        (pagOutput all fs fm a).end_line + 1 ∧
      (pagOutput all fs fm a).window ++ (pagOutput all fs fm { a with start_line := c }).window =
        (all.drop (a.start_line - 1)).take
          ((pagOutput all fs fm a).window.length +
            (pagOutput all fs fm { a with start_line := c }).window.length)) ∧
    (∀ (matcher : String → Bool) (lines : List String) (a : SearchArgs) (k : Nat),
      searchArgsValid a = true →
      (searchSel matcher lines a).continuation = some k →
      search_log_file matcher lines a =
        .results (searchSel matcher lines a).total a.skip_matches
          (searchSel matcher lines a).selected (searchSel matcher lines a).continuation ∧
      search_log_file matcher lines { a with skip_matches := k } =
        .results (searchSel matcher lines { a with skip_matches := k }).total k
          (searchSel matcher lines { a with skip_matches := k }).selected
          (searchSel matcher lines { a with skip_matches := k }).continuation ∧
      k = a.skip_matches + (searchSel matcher lines a).selected.length ∧
      (searchSel matcher lines a).selected ++
          (searchSel matcher lines { a with skip_matches := k }).selected =
        ((matchIndices matcher lines).drop a.skip_matches).take
          ((searchSel matcher lines a).selected.length +
            (searchSel matcher lines { a with skip_matches := k }).selected.length)) := by
  constructor
  · intro all fs fm a c hv hcont
    have hcontEq : (pagOutput all fs fm a).continuation =
        (if pagEndLine all a < all.length then some (pagEndLine all a + 1) else none) := rfl
    rw [hcontEq] at hcont
    by_cases he : pagEndLine all a < all.length
    case neg => rw [if_neg he] at hcont; simp at hcont
    rw [if_pos he] at hcont
    have hc : pagEndLine all a + 1 = c := Option.some.inj hcont
    have hkey : pagEndLine all a = a.start_line - 1 + (pagWindow all a).length := by
      cases hn : a.num_lines with
      | none => simp only [pagEndLine, hn]
      | some n =>
        have he' := he
        simp only [pagEndLine, hn] at he' ⊢
        simp only [pagWindow, hn, List.length_take, List.length_drop]
        omega
    have hc1 : c - 1 = a.start_line - 1 + (pagWindow all a).length := by omega
    have hv2 : pagArgsValid { a with start_line := c } = true := by
      unfold pagArgsValid at hv ⊢
      simp only [Bool.and_eq_true, decide_eq_true_eq] at hv ⊢
      exact ⟨by omega, hv.2⟩
    refine ⟨read_log_paginated_ok all fs fm a hv, read_log_paginated_ok all fs fm _ hv2,
      hc.symm, ?_⟩
    show pagWindow all a ++ pagWindow all { a with start_line := c } =
      (all.drop (a.start_line - 1)).take
        ((pagWindow all a).length + (pagWindow all { a with start_line := c }).length)
    rw [List.take_add]
    refine congrArg₂ (· ++ ·) (pagWindow_eq_take all a) ?_
    calc pagWindow all { a with start_line := c }
        = (all.drop (c - 1)).take (pagWindow all { a with start_line := c }).length :=
          pagWindow_eq_take all { a with start_line := c }
      _ = ((all.drop (a.start_line - 1)).drop (pagWindow all a).length).take
            (pagWindow all { a with start_line := c }).length := by
          rw [hc1, ← List.drop_drop]
  · intro matcher lines a k hv hcont
    have hcontEq : (searchSel matcher lines a).continuation =
        (if a.skip_matches + (searchSel matcher lines a).selected.length <
             (matchIndices matcher lines).length then
           some (a.skip_matches + (searchSel matcher lines a).selected.length)
         else none) := rfl
    rw [hcontEq] at hcont
    by_cases hlt : a.skip_matches + (searchSel matcher lines a).selected.length <
        (matchIndices matcher lines).length
    case neg => rw [if_neg hlt] at hcont; simp at hcont
    rw [if_pos hlt] at hcont
    have hk : a.skip_matches + (searchSel matcher lines a).selected.length = k :=
      Option.some.inj hcont
    have hne : (matchIndices matcher lines).isEmpty = false :=
      isEmpty_false_of_length_pos _ (by omega)
    have hmore : ((matchIndices matcher lines).drop a.skip_matches).isEmpty = false :=
      isEmpty_false_of_length_pos _ (by rw [List.length_drop]; omega)
    have hmore2 : ((matchIndices matcher lines).drop k).isEmpty = false :=
      isEmpty_false_of_length_pos _ (by rw [List.length_drop]; omega)
    have hv2 : searchArgsValid { a with skip_matches := k } = true := hv
    refine ⟨search_log_file_results matcher lines a hv hne hmore,
      search_log_file_results matcher lines { a with skip_matches := k } hv2 hne hmore2,
      hk.symm, ?_⟩
    rw [List.take_add]
    refine congrArg₂ (· ++ ·) (searchSel_eq_take matcher lines a) ?_
    calc (searchSel matcher lines { a with skip_matches := k }).selected
        = ((matchIndices matcher lines).drop k).take
            (searchSel matcher lines { a with skip_matches := k }).selected.length :=
          searchSel_eq_take matcher lines { a with skip_matches := k }
      _ = (((matchIndices matcher lines).drop a.skip_matches).drop
              (searchSel matcher lines a).selected.length).take
            (searchSel matcher lines { a with skip_matches := k }).selected.length := by
          rw [← hk, ← List.drop_drop]

/-- C6 witness: a 3-line file paginated with a 2-token budget continues
from line 3; a 4-line file searched with zero context and a 20-token
budget continues from `skip_matches = 1`. -/
theorem c6_cursor_roundtrip_witness :
    (read_log_paginated ["aaaa\n", "bbbb\n", "cccc\n"] 15 0
        { start_line := 1, max_tokens := 2 } =
      .ok (pagOutput ["aaaa\n", "bbbb\n", "cccc\n"] 15 0 { start_line := 1, max_tokens := 2 }) ∧
    read_log_paginated ["aaaa\n", "bbbb\n", "cccc\n"] 15 0
        { ({ start_line := 1, max_tokens := 2 } : PagArgs) with start_line := 3 } =
      .ok (pagOutput ["aaaa\n", "bbbb\n", "cccc\n"] 15 0
        { ({ start_line := 1, max_tokens := 2 } : PagArgs) with start_line := 3 }) ∧
    (pagOutput ["aaaa\n", "bbbb\n", "cccc\n"] 15 0
        { ({ start_line := 1, max_tokens := 2 } : PagArgs) with start_line := 3 }).start_line =
      (pagOutput ["aaaa\n", "bbbb\n", "cccc\n"] 15 0
        { start_line := 1, max_tokens := 2 }).end_line + 1 ∧
    (pagOutput ["aaaa\n", "bbbb\n", "cccc\n"] 15 0 { start_line := 1, max_tokens := 2 }).window ++
        (pagOutput ["aaaa\n", "bbbb\n", "cccc\n"] 15 0
          { ({ start_line := 1, max_tokens := 2 } : PagArgs) with start_line := 3 }).window =
      ((["aaaa\n", "bbbb\n", "cccc\n"] : List String).drop
          (({ start_line := 1, max_tokens := 2 } : PagArgs).start_line - 1)).take
        ((pagOutput ["aaaa\n", "bbbb\n", "cccc\n"] 15 0
            { start_line := 1, max_tokens := 2 }).window.length +
          (pagOutput ["aaaa\n", "bbbb\n", "cccc\n"] 15 0
            { ({ start_line := 1, max_tokens := 2 } : PagArgs) with
              start_line := 3 }).window.length)) ∧
    (search_log_file (fun l => l == "x\n") ["x\n", "y\n", "x\n", "x\n"]
        { context_before := some 0, context_after := some 0, max_tokens := 20 } =
      .results
        (searchSel (fun l => l == "x\n") ["x\n", "y\n", "x\n", "x\n"]
          { context_before := some 0, context_after := some 0, max_tokens := 20 }).total
        ({ context_before := some 0, context_after := some 0,
           max_tokens := 20 } : SearchArgs).skip_matches
        (searchSel (fun l => l == "x\n") ["x\n", "y\n", "x\n", "x\n"]
          { context_before := some 0, context_after := some 0, max_tokens := 20 }).selected
        (searchSel (fun l => l == "x\n") ["x\n", "y\n", "x\n", "x\n"]
          { context_before := some 0, context_after := some 0, max_tokens := 20 }).continuation ∧
    search_log_file (fun l => l == "x\n") ["x\n", "y\n", "x\n", "x\n"]
        { ({ context_before := some 0, context_after := some 0,
             max_tokens := 20 } : SearchArgs) with skip_matches := 1 } =
      .results
        (searchSel (fun l => l == "x\n") ["x\n", "y\n", "x\n", "x\n"]
          { ({ context_before := some 0, context_after := some 0,
               max_tokens := 20 } : SearchArgs) with skip_matches := 1 }).total
        1
        (searchSel (fun l => l == "x\n") ["x\n", "y\n", "x\n", "x\n"]
          { ({ context_before := some 0, context_after := some 0,
               max_tokens := 20 } : SearchArgs) with skip_matches := 1 }).selected
        (searchSel (fun l => l == "x\n") ["x\n", "y\n", "x\n", "x\n"]
          { ({ context_before := some 0, context_after := some 0,
               max_tokens := 20 } : SearchArgs) with skip_matches := 1 }).continuation ∧
    1 = ({ context_before := some 0, context_after := some 0,
           max_tokens := 20 } : SearchArgs).skip_matches +
        (searchSel (fun l => l == "x\n") ["x\n", "y\n", "x\n", "x\n"]
          { context_before := some 0, context_after := some 0, max_tokens := 20 }).selected.length ∧
    (searchSel (fun l => l == "x\n") ["x\n", "y\n", "x\n", "x\n"]
        { context_before := some 0, context_after := some 0, max_tokens := 20 }).selected ++
        (searchSel (fun l => l == "x\n") ["x\n", "y\n", "x\n", "x\n"]
          { ({ context_before := some 0, context_after := some 0,
               max_tokens := 20 } : SearchArgs) with skip_matches := 1 }).selected =
      ((matchIndices (fun l => l == "x\n") ["x\n", "y\n", "x\n", "x\n"]).drop
          ({ context_before := some 0, context_after := some 0,
             max_tokens := 20 } : SearchArgs).skip_matches).take
        ((searchSel (fun l => l == "x\n") ["x\n", "y\n", "x\n", "x\n"]
            { context_before := some 0, context_after := some 0,
              max_tokens := 20 }).selected.length +
          (searchSel (fun l => l == "x\n") ["x\n", "y\n", "x\n", "x\n"]
            { ({ context_before := some 0, context_after := some 0,
                 max_tokens := 20 } : SearchArgs) with skip_matches := 1 }).selected.length)) :=
  ⟨c6_cursor_roundtrip.1 ["aaaa\n", "bbbb\n", "cccc\n"] 15 0
      { start_line := 1, max_tokens := 2 } 3 (by decide) (by decide),
   c6_cursor_roundtrip.2 (fun l => l == "x\n") ["x\n", "y\n", "x\n", "x\n"]
      { context_before := some 0, context_after := some 0, max_tokens := 20 } 1
      (by decide) (by decide)⟩

end LogMcp
